import Mathlib

/-!
Shallow embedding of the match engine of the card_gacha repository
(src/models/card.py, deck.py, player.py, game_state.py and
src/controllers/game_controller.py, ai_controller.py), together with
theorems settling the behavioural claims about it.

Python integers are modelled as `Int`; Python floats that appear only in
the AI scoring heuristics are modelled as `ℚ` (every literal in the source
is an exact decimal, so the arithmetic is exact); Python `None`-able values
become `Option`; in-place mutation becomes explicit state passing.
`random.uniform(lo, hi)` is modelled by an injected stream of rationals
clamped into `[lo, hi]`, and `random.shuffle` is never needed by the
claims under study.
-/

/-! ## Constants (src/constants.py) -/

def PLAYER_STARTING_HEALTH : Int := 10

def PLAYER_MAX_ENERGY : Int := 3

def PLAYER_FIELD_SIZE : Nat := 3

def VICTORY_REWARD_EASY : Int := 20

def VICTORY_REWARD_NORMAL : Int := 25

def VICTORY_REWARD_HARD : Int := 30

/-! ## String helpers

Python's `s.lower()` and `"sub" in s` on ASCII names, modelled on
character lists. -/

def strLower (s : String) : List Char := s.toList.map Char.toLower

def containsSub (haystack needle : List Char) : Bool :=
  match haystack with
  | [] => needle.isEmpty
  | _ :: t => needle.isPrefixOf haystack || containsSub t needle

/-! ## Card (src/models/card.py) -/

structure Card where
  id : String
  name : String
  hp : Int
  cost : Int
  attack : Int
  image_path : String
  flavor_text : String
  rarity : String
deriving DecidableEq, Inhabited, Repr

def Card.is_alive (c : Card) : Bool := c.hp > 0

/-- `Card.take_damage`: `hp -= damage`; if `hp < 0`, the excess `abs(hp)`
is returned and `hp` is floored at 0; otherwise excess is 0. Returns the
updated card together with the excess. -/
def Card.take_damage (c : Card) (damage : Int) : Card × Int :=
  let hp1 := c.hp - damage
  if hp1 < 0 then ({ c with hp := 0 }, |hp1|)
  else ({ c with hp := hp1 }, 0)

/-! ## Deck (src/models/deck.py) -/

structure Deck where
  name : String
  cards : List Card
deriving DecidableEq, Inhabited, Repr

def MAX_DECK_SIZE : Nat := 30

def MAX_COPIES_PER_CARD : Nat := 3

/-- `Deck.add_card`: refuses (returns `false`, deck unchanged) when the
deck already has `MAX_DECK_SIZE` cards or already holds
`MAX_COPIES_PER_CARD` copies of this card's id; otherwise appends. -/
def Deck.add_card (d : Deck) (card : Card) : Deck × Bool :=
  if d.cards.length ≥ MAX_DECK_SIZE then (d, false)
  else
    let copies := (d.cards.filter (fun c => c.id = card.id)).length
    if copies ≥ MAX_COPIES_PER_CARD then (d, false)
    else ({ d with cards := d.cards ++ [card] }, true)

/-- `Deck.draw`: pops the front card, or `none` on an empty deck. -/
def Deck.draw (d : Deck) : Deck × Option Card :=
  match d.cards with
  | [] => (d, none)
  | c :: rest => ({ d with cards := rest }, some c)

def Deck.drawLoop : Nat → Deck → Deck × List Card
  | 0, d => (d, [])
  | n + 1, d =>
    match d.draw with
    | (d1, some c) =>
      let (d2, cs) := Deck.drawLoop n d1
      (d2, c :: cs)
    | (d1, none) =>
      let (d2, cs) := Deck.drawLoop n d1
      (d2, cs)

/-- `Deck.draw_hand(count)`: draws `min(count, len(cards))` cards. -/
def Deck.draw_hand (d : Deck) (count : Nat) : Deck × List Card :=
  Deck.drawLoop (min count d.cards.length) d

/-! ## Player (src/models/player.py) -/

structure Player where
  name : String
  health : Int
  max_health : Int
  energy : Int
  max_energy : Int
  deck : Deck
  hand : List Card
  field : List (Option Card)
  credits : Int
deriving DecidableEq, Inhabited, Repr

/-- `Player.__init__`: the field always starts as `PLAYER_FIELD_SIZE`
empty slots. -/
def Player.mk0 (name : String) (deck : Deck) : Player :=
  { name := name
    health := PLAYER_STARTING_HEALTH
    max_health := PLAYER_STARTING_HEALTH
    energy := PLAYER_MAX_ENERGY
    max_energy := PLAYER_MAX_ENERGY
    deck := deck
    hand := []
    field := List.replicate PLAYER_FIELD_SIZE none
    credits := 0 }

/-- `Player.play_card(hand_index, field_index)`: the four checks in source
order, first failure winning; on success the cost is deducted, the card is
popped from the hand and placed in the field slot.
(The field list always has length `PLAYER_FIELD_SIZE`, so `getD`/`set`
after the range check coincide with Python indexing; the `getD default`
hand access is guarded by the first range check.) -/
def Player.play_card (p : Player) (hand_index field_index : Int) :
    Player × Bool × String :=
  if ¬ (0 ≤ hand_index ∧ hand_index < (p.hand.length : Int)) then
    (p, false, "Invalid hand index")
  else if ¬ (0 ≤ field_index ∧ field_index < (PLAYER_FIELD_SIZE : Int)) then
    (p, false, "Invalid field index")
  else if (p.field.getD field_index.toNat none).isSome then
    (p, false, "Field position already occupied")
  else
    let card := p.hand.getD hand_index.toNat default
    if p.energy < card.cost then
      (p, false, "Not enough energy")
    else
      ({ p with
          energy := p.energy - card.cost
          hand := p.hand.eraseIdx hand_index.toNat
          field := p.field.set field_index.toNat (some card) },
        true, "Card played successfully")

/-- `Player.take_damage`: `health = max(0, health - damage)`. -/
def Player.take_damage (p : Player) (damage : Int) : Player :=
  { p with health := max 0 (p.health - damage) }

def Player.is_alive (p : Player) : Bool := p.health > 0

def Player.reset_energy (p : Player) : Player :=
  { p with energy := p.max_energy }

def Player.add_credits (p : Player) (amount : Int) : Player :=
  { p with credits := p.credits + amount }

/-- `Player.draw_card`: draws from the deck; a drawn card is appended to
the hand. -/
def Player.draw_card (p : Player) : Player × Option Card :=
  match p.deck.draw with
  | (d1, some card) => ({ p with deck := d1, hand := p.hand ++ [card] }, some card)
  | (d1, none) => ({ p with deck := d1 }, none)

/-! ## GameState (src/models/game_state.py) -/

inductive GamePhase where
  | DRAW
  | PLAY
  | ATTACK
  | END
deriving DecidableEq, Inhabited, Repr

/-- Which of the two `Player` objects `GameState.winner` refers to. -/
inductive Who where
  | player
  | opponent
deriving DecidableEq, Inhabited, Repr

structure GameState where
  player : Player
  opponent : Player
  current_player_index : Nat
  current_phase : GamePhase
  turn_number : Int
  game_over : Bool
  winner : Option Who
deriving DecidableEq, Inhabited, Repr

/-- `GameState.__init__`. -/
def GameState.mk0 (player opponent : Player) : GameState :=
  { player := player
    opponent := opponent
    current_player_index := 0
    current_phase := GamePhase.DRAW
    turn_number := 1
    game_over := false
    winner := none }

/-- `self.players[self.current_player_index]` (the index is always 0 or 1:
`players = [player, opponent]`). -/
def GameState.current_player (s : GameState) : Player :=
  if s.current_player_index = 0 then s.player else s.opponent

/-- `self.players[1 - self.current_player_index]`. -/
def GameState.other_player (s : GameState) : Player :=
  if s.current_player_index = 0 then s.opponent else s.player

/-- Write back the `current_player` and `other_player` objects after
in-place mutation. -/
def GameState.setCurrentOther (s : GameState) (cur other : Player) : GameState :=
  if s.current_player_index = 0 then { s with player := cur, opponent := other }
  else { s with player := other, opponent := cur }

/-- Apply a mutation to the current player object. -/
def GameState.updateCurrent (s : GameState) (f : Player → Player) : GameState :=
  if s.current_player_index = 0 then { s with player := f s.player }
  else { s with opponent := f s.opponent }

/-- The successor in the list `phases = list(GamePhase)` under
`(index + 1) % len(phases)`. -/
def GamePhase.next : GamePhase → GamePhase
  | GamePhase.DRAW => GamePhase.PLAY
  | GamePhase.PLAY => GamePhase.ATTACK
  | GamePhase.ATTACK => GamePhase.END
  | GamePhase.END => GamePhase.DRAW

/-- `GameState.next_turn`: flip the 0/1 index, bump `turn_number` when the
new index is 0, reset the new current player's energy. -/
def GameState.next_turn (s : GameState) : GameState :=
  let s1 := { s with current_player_index := 1 - s.current_player_index }
  let s2 :=
    if s1.current_player_index = 0 then { s1 with turn_number := s1.turn_number + 1 }
    else s1
  s2.updateCurrent Player.reset_energy

/-- `GameState.next_phase`: cyclic advance; on wrapping to `DRAW` call
`next_turn`. -/
def GameState.next_phase (s : GameState) : GameState :=
  let s1 := { s with current_phase := s.current_phase.next }
  if s1.current_phase = GamePhase.DRAW then s1.next_turn else s1

/-- `GameState.check_game_over`: player death is checked first, so the
opponent wins a simultaneous double-lethal. Returns the updated state and
the boolean result. -/
def GameState.check_game_over (s : GameState) : GameState × Bool :=
  if ¬ s.player.is_alive then
    ({ s with game_over := true, winner := some Who.opponent }, true)
  else if ¬ s.opponent.is_alive then
    ({ s with game_over := true, winner := some Who.player }, true)
  else (s, false)

/-! ## Events (the tagged dictionaries built by the controllers) -/

inductive Event where
  | draw (player card : String)
  | deck_empty (player : String)
  | card_attack (attacker defender : String) (attack_damage : Int) (slot : Nat)
  | card_destroyed (card : String) (slot : Nat)
  | player_damage (player : String) (damage : Int) (source : String)
  | card_counter_attack (attacker defender : String) (attack_damage : Int) (slot : Nat)
  | credits_awarded (player : String) (amount : Int) (difficulty : String)
  | game_over_event (winner : String)
  | ai_card_played (card : String) (field_position : Nat) (energy_remaining : Int)
deriving DecidableEq, Inhabited, Repr

/-! ## GameController (src/controllers/game_controller.py) -/

/-- `_handle_draw_phase`: the current player draws one card; a `draw` or
`deck_empty` event is emitted. -/
def handle_draw_phase (s : GameState) : GameState × List Event :=
  let cur := s.current_player
  match cur.draw_card with
  | (cur1, some card) =>
    (s.updateCurrent (fun _ => cur1), [Event.draw cur.name card.name])
  | (cur1, none) =>
    (s.updateCurrent (fun _ => cur1), [Event.deck_empty cur.name])

/-- The body of the `for slot, card in enumerate(attacker.field)` loop of
`_handle_attack_phase`, for one slot: lane combat between the attacker's
and defender's cards in that slot (or a direct hit on the defending
player when the mirrored slot is empty). -/
def resolveSlot (attacker defender : Player) (slot : Nat) :
    Player × Player × List Event :=
  match attacker.field.getD slot none with
  | none => (attacker, defender, [])
  | some card =>
    match defender.field.getD slot none with
    | some defender_card =>
      let ev1 := Event.card_attack card.name defender_card.name card.attack slot
      let td := defender_card.take_damage card.attack
      let defender_card1 := td.1
      let excess_damage := td.2
      if ¬ defender_card1.is_alive then
        let defender1 := { defender with field := defender.field.set slot none }
        if excess_damage > 0 then
          (attacker, defender1.take_damage excess_damage,
            [ev1, Event.card_destroyed defender_card1.name slot,
              Event.player_damage defender.name excess_damage
                ("Excess from " ++ card.name)])
        else
          (attacker, defender1, [ev1, Event.card_destroyed defender_card1.name slot])
      else
        -- the surviving defender card (mutated in place in Python) counter-attacks
        let defender1 :=
          { defender with field := defender.field.set slot (some defender_card1) }
        let card1 := (card.take_damage defender_card1.attack).1
        let ev2 := Event.card_counter_attack defender_card1.name card1.name
          defender_card1.attack slot
        if ¬ card1.is_alive then
          ({ attacker with field := attacker.field.set slot none }, defender1,
            [ev1, ev2, Event.card_destroyed card1.name slot])
        else
          ({ attacker with field := attacker.field.set slot (some card1) }, defender1,
            [ev1, ev2])
    | none =>
      (attacker, defender.take_damage card.attack,
        [Event.player_damage defender.name card.attack card.name])

/-- The slot loop of `_handle_attack_phase` over the given slot indices. -/
def attackLoop (attacker defender : Player) : List Nat → Player × Player × List Event
  | [] => (attacker, defender, [])
  | slot :: rest =>
    let r := resolveSlot attacker defender slot
    let r2 := attackLoop r.1 r.2.1 rest
    (r2.1, r2.2.1, r.2.2 ++ r2.2.2)

/-- Difficulty marker extraction of `_handle_attack_phase`: `"easy"` /
`"hard"` as a substring of the lowercased opponent name, `"normal"`
otherwise. -/
def difficultyOf (opponent_name : String) : String :=
  let n := strLower opponent_name
  if containsSub n "easy".toList then "easy"
  else if containsSub n "hard".toList then "hard"
  else "normal"

def rewardOf (difficulty : String) : Int :=
  if difficulty = "easy" then VICTORY_REWARD_EASY
  else if difficulty = "hard" then VICTORY_REWARD_HARD
  else VICTORY_REWARD_NORMAL

def winnerName (s : GameState) : String :=
  match s.winner with
  | some Who.player => s.player.name
  | some Who.opponent => s.opponent.name
  | none => ""

/-- `_handle_attack_phase`: resolve all slots in order for the current
player as attacker, then `check_game_over`; on a human-player win, award
the name-marker-based victory reward and emit `credits_awarded`; emit
`game_over`. -/
def handle_attack_phase (s : GameState) : GameState × List Event :=
  let attacker := s.current_player
  let defender := s.other_player
  let r := attackLoop attacker defender (List.range attacker.field.length)
  let evs := r.2.2
  let s1 := s.setCurrentOther r.1 r.2.1
  let cg := s1.check_game_over
  let s2 := cg.1
  if cg.2 then
    if s2.winner = some Who.player then
      let difficulty := difficultyOf s2.opponent.name
      let reward := rewardOf difficulty
      let s3 := { s2 with player := s2.player.add_credits reward }
      (s3, evs ++
        [Event.credits_awarded s2.player.name reward difficulty,
          Event.game_over_event (winnerName s3)])
    else
      (s2, evs ++ [Event.game_over_event (winnerName s2)])
  else (s2, evs)

/-- `GameController.process_turn`: dispatch on the current phase; the PLAY
and END phases have no controller-level effect. -/
def process_turn (s : GameState) : GameState × List Event :=
  match s.current_phase with
  | GamePhase.DRAW => handle_draw_phase s
  | GamePhase.PLAY => (s, [])
  | GamePhase.ATTACK => handle_attack_phase s
  | GamePhase.END => (s, [])

/-! ## AIController (src/controllers/ai_controller.py) -/

inductive AIDifficulty where
  | EASY
  | NORMAL
  | HARD
deriving DecidableEq, Inhabited, Repr

inductive AIPersonality where
  | AGGRESSIVE
  | DEFENSIVE
  | BALANCED
  | CONTROL
deriving DecidableEq, Inhabited, Repr

structure AIWeights where
  attack : ℚ
  health : ℚ
  cost_efficiency : ℚ
  board_control : ℚ
  direct_damage : ℚ
  counter_opponent : ℚ
deriving DecidableEq, Inhabited, Repr

def AIWeights.scale (w : AIWeights) (k : ℚ) : AIWeights :=
  { attack := w.attack * k
    health := w.health * k
    cost_efficiency := w.cost_efficiency * k
    board_control := w.board_control * k
    direct_damage := w.direct_damage * k
    counter_opponent := w.counter_opponent * k }

/-- `_init_strategy_weights`: personality adjustments over all-1.0
defaults, then an EASY 0.7 / HARD 1.3 global multiplier. -/
def init_strategy_weights (personality : AIPersonality) (difficulty : AIDifficulty) :
    AIWeights :=
  let w : AIWeights :=
    { attack := 1.0, health := 1.0, cost_efficiency := 1.0,
      board_control := 1.0, direct_damage := 1.0, counter_opponent := 1.0 }
  let w :=
    match personality with
    | AIPersonality.AGGRESSIVE => { w with attack := 2.0, direct_damage := 1.8, health := 0.7 }
    | AIPersonality.DEFENSIVE => { w with health := 2.0, board_control := 1.5, direct_damage := 0.7 }
    | AIPersonality.CONTROL =>
      { w with board_control := 2.0, counter_opponent := 1.8, cost_efficiency := 1.5 }
    | AIPersonality.BALANCED => w
  match difficulty with
  | AIDifficulty.EASY => w.scale 0.7
  | AIDifficulty.HARD => w.scale 1.3
  | AIDifficulty.NORMAL => w

structure AIController where
  difficulty : AIDifficulty
  personality : AIPersonality
  weights : AIWeights
deriving DecidableEq, Inhabited, Repr

def AIController.mk0 (difficulty : AIDifficulty) (personality : AIPersonality) :
    AIController :=
  { difficulty := difficulty, personality := personality,
    weights := init_strategy_weights personality difficulty }

/-- `random.uniform(lo, hi)`, driven by an injected rational clamped into
the interval. -/
def uniformQ (lo hi x : ℚ) : ℚ := max lo (min hi x)

/-- The per-candidate score jitter of `_play_cards`, by difficulty. -/
def jitterFor (d : AIDifficulty) (x : ℚ) : ℚ :=
  match d with
  | AIDifficulty.EASY => uniformQ (-1.5) 1.5 x
  | AIDifficulty.NORMAL => uniformQ (-0.8) 0.8 x
  | AIDifficulty.HARD => uniformQ (-0.3) 0.3 x

/-- `_calculate_card_priority`. (The `energy_ratio` division is exact in
`ℚ`; Python would raise `ZeroDivisionError` on `max_energy == 0`, a state
the game never constructs.) -/
def calculate_card_priority (ai : AIController) (card : Card)
    (ai_player human_player : Player) : ℚ :=
  let w := ai.weights
  let attack_value := (card.attack : ℚ) * w.attack
  let health_value := (card.hp : ℚ) * w.health
  let stats_sum : Int := card.attack + card.hp
  let cost_efficiency := ((stats_sum : ℚ) / ((max 1 card.cost : Int) : ℚ)) * w.cost_efficiency
  let base_score := attack_value + health_value + cost_efficiency
  let situational : ℚ :=
    match ai.personality with
    | AIPersonality.AGGRESSIVE =>
      (card.attack : ℚ) * 0.5 +
        (if human_player.health < 5 then (card.attack : ℚ) * 1.5 else 0)
    | AIPersonality.DEFENSIVE =>
      (card.hp : ℚ) * 0.5 + (if ai_player.health < 5 then (card.hp : ℚ) * 1.0 else 0)
    | AIPersonality.CONTROL =>
      let balance : ℚ :=
        1.0 - (|(card.attack - card.hp : Int)| : ℚ) / ((max 1 (card.attack + card.hp) : Int) : ℚ)
      balance * 2.0 * w.board_control
    | AIPersonality.BALANCED => 0
  let empty_slots := (ai_player.field.filter Option.isNone).length
  let situational := situational + (if empty_slots ≤ 1 then (card.attack : ℚ) * 0.8 else 0)
  let energy_ratio : ℚ := (ai_player.energy : ℚ) / (ai_player.max_energy : ℚ)
  let situational := situational +
    (if energy_ratio > 0.7 then (card.cost : ℚ) * 0.3
      else if energy_ratio < 0.4 then ((ai_player.max_energy - card.cost : Int) : ℚ) * 0.4
      else 0)
  let final_score := base_score + situational
  if ai.difficulty = AIDifficulty.HARD ∧
      (containsSub (strLower card.name) "dragon".toList ∨
        containsSub (strLower card.name) "phoenix".toList) then
    final_score + 1.0
  else final_score

/-- `_calculate_position_score` (its `ai_player` parameter is unused in
the source too). -/
def calculate_position_score (ai : AIController) (card : Card) (position : Nat)
    (_ai_player human_player : Player) : ℚ :=
  match human_player.field.getD position none with
  | some opposing_card =>
    let score : ℚ := 0
    let score :=
      if card.attack ≥ opposing_card.hp then
        score + (opposing_card.attack : ℚ) * 1.2 +
          (if ai.personality = AIPersonality.AGGRESSIVE then
            (opposing_card.attack : ℚ) * 0.5 else 0)
      else score
    if card.hp > opposing_card.attack then
      score + (card.attack : ℚ) * 0.8 +
        (if ai.personality = AIPersonality.DEFENSIVE then (card.hp : ℚ) * 0.5 else 0)
    else
      if card.cost < opposing_card.cost then
        score + ((opposing_card.cost - card.cost : Int) : ℚ) * ai.weights.cost_efficiency
      else score
  | none =>
    let score := (card.attack : ℚ) * ai.weights.direct_damage
    if card.hp > 3 ∧ ai.personality = AIPersonality.DEFENSIVE then
      score - (card.hp : ℚ) * 0.3
    else score

/-- `_evaluate_field_positions`: base scores for the AI-side empty
positions, computed once at the start of `_play_cards`. -/
def evaluate_field_positions (ai : AIController) (ai_player human_player : Player) :
    List (Nat × ℚ) :=
  (List.range PLAYER_FIELD_SIZE).filterMap (fun position =>
    if (ai_player.field.getD position none).isSome then none
    else
      let score : ℚ :=
        match human_player.field.getD position none with
        | some opposing_card =>
          (opposing_card.attack : ℚ) * ai.weights.counter_opponent +
            (if ai.personality = AIPersonality.AGGRESSIVE then
              (opposing_card.hp : ℚ) * 0.5 else 0) +
            (if ai.personality = AIPersonality.DEFENSIVE then
              (opposing_card.attack : ℚ) * 0.8 else 0)
        | none =>
          ai.weights.direct_damage * 2 +
            (if ai.personality = AIPersonality.AGGRESSIVE then 2.0 else 0)
      let score := if position = 1 then score + 0.5 else score
      some (position, score))

/-- The affordable-candidate scan of one `while` iteration of
`_play_cards`, recursing over the enumerated hand suffix:
`(hand index, card, priority + jitter)` for each hand card with
`cost <= energy`, consuming one jitter value per scored candidate.
Returns the candidates (in hand order) and the next jitter cursor. -/
def buildCandidates (ai : AIController) (ai_player human_player : Player)
    (jit : Nat → ℚ) : List Card → Nat → Nat → List (Nat × Card × ℚ) × Nat
  | [], _, k => ([], k)
  | card :: rest, idx, k =>
    if ai_player.energy < card.cost then
      buildCandidates ai ai_player human_player jit rest (idx + 1) k
    else
      let score := calculate_card_priority ai card ai_player human_player +
        jitterFor ai.difficulty (jit k)
      let bc := buildCandidates ai ai_player human_player jit rest (idx + 1) (k + 1)
      ((idx, card, score) :: bc.1, bc.2)

/-- The head of the stable descending sort of the candidate list: the
earliest candidate of maximal score. -/
def pickBest (l : List (Nat × Card × ℚ)) : Option (Nat × Card × ℚ) :=
  match l with
  | [] => none
  | x :: xs => some (xs.foldl (fun b y => if b.2.2 < y.2.2 then y else b) x)

/-- The best-position scan of `_play_cards`: over the precomputed
position list, skipping currently occupied AI slots, maximising
`_calculate_position_score + base`, strict improvement only (the Python
code starts from `-inf`). -/
def pickBestPosition (ai : AIController) (card : Card)
    (field_positions : List (Nat × ℚ)) (ai_player human_player : Player) :
    Option Nat :=
  let step := fun (best : Option (Nat × ℚ)) (ps : Nat × ℚ) =>
    if (ai_player.field.getD ps.1 none).isSome then best
    else
      let position_score := calculate_position_score ai card ps.1 ai_player human_player + ps.2
      match best with
      | none => some (ps.1, position_score)
      | some b => if position_score > b.2 then some (ps.1, position_score) else best
  (field_positions.foldl step none).map Prod.fst

/-- One iteration of the `while True` loop of `_play_cards`:
`Sum.inl` is a `break` (with the events of the break: none), `Sum.inr`
is a successful play carrying the updated AI player, the
`ai_card_played` event and the advanced jitter cursor. -/
def play_step (ai : AIController) (field_positions : List (Nat × ℚ))
    (human_player : Player) (jit : Nat → ℚ) (ai_player : Player) (k : Nat) :
    (Player × List Event) ⊕ (Player × Event × Nat) :=
  let bc := buildCandidates ai ai_player human_player jit ai_player.hand 0 k
  let k1 := bc.2
  match pickBest bc.1 with
  | none => Sum.inl (ai_player, [])
  | some (best_card_idx, best_card, _) =>
    match pickBestPosition ai best_card field_positions ai_player human_player with
    | none => Sum.inl (ai_player, [])
    | some best_position =>
      let pr := ai_player.play_card (best_card_idx : Int) (best_position : Int)
      let ai_player1 := pr.1
      if pr.2.1 then
        Sum.inr (ai_player1,
          Event.ai_card_played best_card.name best_position ai_player1.energy, k1)
      else Sum.inl (ai_player, [])

/-- The `while True` loop of `_play_cards`, fuel-indexed. Each successful
play strictly shrinks the hand, so `hand.length + 1` fuel always
suffices (the termination theorem below); `none` is fuel exhaustion. -/
def play_cards_loop (ai : AIController) (field_positions : List (Nat × ℚ))
    (human_player : Player) (jit : Nat → ℚ) :
    Player → Nat → Nat → Option (Player × List Event)
  | _, _, 0 => none
  | ai_player, k, fuel + 1 =>
    match play_step ai field_positions human_player jit ai_player k with
    | Sum.inl r => some r
    | Sum.inr (ai_player1, ev, k1) =>
      match play_cards_loop ai field_positions human_player jit ai_player1 k1 fuel with
      | some (p, evs) => some (p, ev :: evs)
      | none => none

/-- `_play_cards`: the AI player is `game_state.opponent`, the human is
`game_state.player`; position base scores are computed once up front. -/
def play_cards (ai : AIController) (s : GameState) (jit : Nat → ℚ) :
    GameState × List Event :=
  let ai_player := s.opponent
  let human_player := s.player
  let field_positions := evaluate_field_positions ai ai_player human_player
  match play_cards_loop ai field_positions human_player jit ai_player 0
      (ai_player.hand.length + 1) with
  | some (p, evs) => ({ s with opponent := p }, evs)
  | none => (s, [])

/-- `AIController.take_turn`: act only when the current player is the
opponent object (`players[1]`, i.e. index 1) and only in the PLAY
phase. -/
def AIController.take_turn (ai : AIController) (s : GameState) (jit : Nat → ℚ) :
    GameState × List Event :=
  if s.current_player_index ≠ 1 then (s, [])
  else if s.current_phase = GamePhase.PLAY then play_cards ai s jit
  else (s, [])

/-- The game state right after the slot loop of `_handle_attack_phase`
(before `check_game_over` and the reward logic). -/
def attack_phase_state (s : GameState) : GameState :=
  let attacker := s.current_player
  let defender := s.other_player
  let r := attackLoop attacker defender (List.range attacker.field.length)
  s.setCurrentOther r.1 r.2.1

/-! ## Concrete fixtures used by counterexamples and witnesses -/

def mkCard (id name : String) (hp cost attack : Int) (rarity : String) : Card :=
  { id := id, name := name, hp := hp, cost := cost, attack := attack,
    image_path := "", flavor_text := "", rarity := rarity }

def cW : Card := mkCard "c1" "Soldier" 2 1 3 "common"

def cExpensive : Card := mkCard "c2" "Titan" 5 99 5 "common"

def cAtk55 : Card := mkCard "a1" "Alpha" 5 1 5 "common"

def cDef32 : Card := mkCard "d1" "Delta" 2 1 3 "common"

def cRare : Card := mkCard "r1" "Raremon" 1 1 1 "rare"

def deckE : Deck := { name := "E", cards := [] }

def deck1 : Deck := { name := "One", cards := [cW] }

def deck30 : Deck := { name := "Full", cards := List.replicate 30 cW }

def deck3cop : Deck := { name := "Trip", cards := [cW, cW, cW] }

def deckRare9 : Deck := { name := "Rares", cards := List.replicate 9 cRare }

def basePlayer (nm : String) : Player := Player.mk0 nm deckE

def pC5 : Player := { basePlayer "Alice" with hand := [cW] }

def pC2 : Player := { basePlayer "Alice" with field := [some cAtk55, none, none] }

def oC2 : Player := { basePlayer "Bob" with field := [some cDef32, none, none] }

def sC2 : GameState :=
  { GameState.mk0 pC2 oC2 with current_phase := GamePhase.ATTACK }

def oC3 : Player := { basePlayer "AI Bot" with health := 3, deck := deckRare9 }

def sC3 : GameState :=
  { GameState.mk0 pC2 oC3 with current_phase := GamePhase.ATTACK }

def pC4 : Player := { basePlayer "Alice" with deck := deck1 }

def sC4 : GameState :=
  { GameState.mk0 pC4 (basePlayer "Bob") with game_over := true }

def sC4e : GameState := { sC4 with current_phase := GamePhase.END }

def sC6 : GameState := GameState.mk0 (basePlayer "Alice") (basePlayer "Bob")

def tEnd : GameState := { sC6 with current_phase := GamePhase.END }

def pDead : Player := { basePlayer "Alice" with health := 0 }

def sC7 : GameState := GameState.mk0 pDead (basePlayer "Bob")

def aiC : AIController := AIController.mk0 AIDifficulty.NORMAL AIPersonality.BALANCED

def jit0 : Nat → ℚ := fun _ => 0

def oC9 : Player :=
  { basePlayer "Bob" with hand := [cExpensive], field := [some cW, some cW, some cW] }

def sC9 : GameState :=
  { GameState.mk0 (basePlayer "Alice") oC9 with
      current_player_index := 1, current_phase := GamePhase.PLAY }

def oC9b : Player :=
  { basePlayer "Bob" with hand := [cW], field := [some cW, some cW, some cW] }

def sC9b : GameState :=
  { GameState.mk0 (basePlayer "Alice") oC9b with
      current_player_index := 1, current_phase := GamePhase.PLAY }

/-! ## Theorems -/

/-- Claim C5: `Player.play_card` checks its preconditions in source order
with the first failure winning (in-range hand index, in-range field
index, empty target slot, enough energy), returns `(false, reason)` with
no state change on any failure, and on success atomically deducts the
card's cost (never driving energy negative), removes the card from the
hand and places it in the chosen field slot. -/
theorem C5_play_card_checks (p : Player) (hand_index field_index : Int) :
    (¬ (0 ≤ hand_index ∧ hand_index < (p.hand.length : Int)) →
      p.play_card hand_index field_index = (p, false, "Invalid hand index"))
    ∧ ((0 ≤ hand_index ∧ hand_index < (p.hand.length : Int)) →
      ¬ (0 ≤ field_index ∧ field_index < (PLAYER_FIELD_SIZE : Int)) →
      p.play_card hand_index field_index = (p, false, "Invalid field index"))
    ∧ ((0 ≤ hand_index ∧ hand_index < (p.hand.length : Int)) →
      (0 ≤ field_index ∧ field_index < (PLAYER_FIELD_SIZE : Int)) →
      (p.field.getD field_index.toNat none).isSome = true →
      p.play_card hand_index field_index = (p, false, "Field position already occupied"))
    ∧ ((0 ≤ hand_index ∧ hand_index < (p.hand.length : Int)) →
      (0 ≤ field_index ∧ field_index < (PLAYER_FIELD_SIZE : Int)) →
      p.field.getD field_index.toNat none = none →
      p.energy < (p.hand.getD hand_index.toNat default).cost →
      p.play_card hand_index field_index = (p, false, "Not enough energy"))
    ∧ ((0 ≤ hand_index ∧ hand_index < (p.hand.length : Int)) →
      (0 ≤ field_index ∧ field_index < (PLAYER_FIELD_SIZE : Int)) →
      p.field.getD field_index.toNat none = none →
      ¬ p.energy < (p.hand.getD hand_index.toNat default).cost →
      p.play_card hand_index field_index =
        ({ p with
            energy := p.energy - (p.hand.getD hand_index.toNat default).cost
            hand := p.hand.eraseIdx hand_index.toNat
            field := p.field.set field_index.toNat
              (some (p.hand.getD hand_index.toNat default)) },
          true, "Card played successfully")
      ∧ 0 ≤ p.energy - (p.hand.getD hand_index.toNat default).cost) := by
  refine ⟨?_, ?_, ?_, ?_, ?_⟩
  · intro h1
    simp only [Player.play_card]
    rw [if_pos h1]
  · intro h1 h2
    simp only [Player.play_card]
    rw [if_neg (not_not_intro h1), if_pos h2]
  · intro h1 h2 h3
    simp only [Player.play_card]
    rw [if_neg (not_not_intro h1), if_neg (not_not_intro h2), if_pos h3]
  · intro h1 h2 h3 h4
    simp only [Player.play_card]
    rw [if_neg (not_not_intro h1), if_neg (not_not_intro h2),
      if_neg (show ¬ ((p.field.getD field_index.toNat none).isSome = true) by rw [h3]; simp),
      if_pos h4]
  · intro h1 h2 h3 h4
    constructor
    · simp only [Player.play_card]
      rw [if_neg (not_not_intro h1), if_neg (not_not_intro h2),
        if_neg (show ¬ ((p.field.getD field_index.toNat none).isSome = true) by rw [h3]; simp),
        if_neg h4]
    · omega

theorem C5_witness :
    pC5.play_card 0 0 =
      ({ pC5 with
          energy := pC5.energy - (pC5.hand.getD 0 default).cost
          hand := pC5.hand.eraseIdx 0
          field := pC5.field.set 0 (some (pC5.hand.getD 0 default)) },
        true, "Card played successfully")
    ∧ 0 ≤ pC5.energy - (pC5.hand.getD 0 default).cost := by
  have h := (C5_play_card_checks pC5 0 0).2.2.2.2
    (by decide) (by decide) (by decide) (by decide)
  simpa using h

/-- Claim C8 counterexample: `Deck.add_card` does enforce the limits on
mutation — a 30-card deck and a deck already holding 3 copies of a card
id both refuse the add (deck unchanged, `false`), contradicting the
claim that the add operation appends regardless. -/
theorem C8_counterexample :
    deck30.cards.length = MAX_DECK_SIZE
    ∧ deck30.add_card cW = (deck30, false)
    ∧ deck3cop.cards.length < MAX_DECK_SIZE
    ∧ (deck3cop.cards.filter (fun x => x.id = cW.id)).length = MAX_COPIES_PER_CARD
    ∧ deck3cop.add_card cW = (deck3cop, false) := by
  refine ⟨by decide, by decide, by decide, by decide, by decide⟩

/-- Claim C8 (amended): `Deck.add_card` enforces both limits at mutation
time — it refuses (returns `false` with the deck unchanged) when the deck
already holds `MAX_DECK_SIZE` cards or `MAX_COPIES_PER_CARD` copies of
the card's id, and appends otherwise; `Deck.draw` removes the front card
unconditionally. -/
theorem C8_add_card_enforced (d : Deck) (c : Card) :
    (d.cards.length ≥ MAX_DECK_SIZE → d.add_card c = (d, false))
    ∧ (d.cards.length < MAX_DECK_SIZE →
      (d.cards.filter (fun x => x.id = c.id)).length ≥ MAX_COPIES_PER_CARD →
      d.add_card c = (d, false))
    ∧ (d.cards.length < MAX_DECK_SIZE →
      (d.cards.filter (fun x => x.id = c.id)).length < MAX_COPIES_PER_CARD →
      d.add_card c = ({ d with cards := d.cards ++ [c] }, true))
    ∧ (∀ top rest, d.cards = top :: rest → d.draw = ({ d with cards := rest }, some top)) := by
  refine ⟨?_, ?_, ?_, ?_⟩
  · intro h1
    simp [Deck.add_card, h1]
  · intro h1 h2
    simp [Deck.add_card, h1, h2, Nat.not_le.mpr h1]
  · intro h1 h2
    simp [Deck.add_card, Nat.not_le.mpr h1, Nat.not_le.mpr h2]
  · intro top rest h
    simp [Deck.draw, h]

theorem C8_witness :
    deckE.add_card cW = ({ deckE with cards := [cW] }, true)
    ∧ deck1.draw = ({ deck1 with cards := [] }, some cW) := by
  refine ⟨(C8_add_card_enforced deckE cW).2.2.1 (by decide) (by decide), ?_⟩
  exact (C8_add_card_enforced deck1 cW).2.2.2 cW [] (by decide)

/-- Claim C4 counterexample: with `game_over` already true and the phase
at DRAW, `process_turn` still mutates the state — the current player
draws a card into their hand. -/
theorem C4_counterexample :
    sC4.game_over = true ∧ sC4.current_phase = GamePhase.DRAW
    ∧ sC4.player.hand = []
    ∧ (process_turn sC4).1.player.hand = [cW]
    ∧ (process_turn sC4).1 ≠ sC4 := by
  refine ⟨by decide, by decide, by decide, by decide, by decide⟩

/-- Claim C4 (amended): `process_turn` does not guard on `game_over`; it
is a no-op only in the PLAY and END phases (in DRAW it still draws, in
ATTACK it still resolves combat, as the counterexample shows). -/
theorem C4_no_game_over_guard (s : GameState) (_hover : s.game_over = true)
    (h : s.current_phase = GamePhase.PLAY ∨ s.current_phase = GamePhase.END) :
    process_turn s = (s, []) := by
  rcases h with h | h <;> simp [process_turn, h]

theorem C4_witness : process_turn sC4e = (sC4e, []) :=
  C4_no_game_over_guard sC4e (by decide) (Or.inr (by decide))

/-- Claim C10: when the current player is not the opponent object (index
not 1) or the phase is not PLAY, `AIController.take_turn` returns no
events and leaves the game state unchanged. -/
theorem C10_take_turn_frame (ai : AIController) (s : GameState) (jit : Nat → ℚ)
    (h : s.current_player_index ≠ 1 ∨ s.current_phase ≠ GamePhase.PLAY) :
    ai.take_turn s jit = (s, []) := by
  unfold AIController.take_turn
  rcases h with h | h
  · simp [h]
  · by_cases h1 : s.current_player_index = 1
    · simp [h1, h]
    · simp [h1]

theorem C10_witness : aiC.take_turn sC2 jit0 = (sC2, []) :=
  C10_take_turn_frame aiC sC2 jit0 (Or.inl (by decide))

/-- Claim C7: `GameState.check_game_over` is idempotent — once a call
returns true (setting `game_over` and `winner`), calling it again on the
resulting state returns true, the very same state (so `game_over` is
never un-set), and the same winner. -/
theorem C7_check_game_over_idempotent (s : GameState)
    (h : (s.check_game_over).2 = true) :
    (s.check_game_over).1.check_game_over = ((s.check_game_over).1, true)
    ∧ (s.check_game_over).1.game_over = true
    ∧ ((s.check_game_over).1.check_game_over).1.winner = (s.check_game_over).1.winner := by
  by_cases h1 : 0 < s.player.health
  · by_cases h2 : 0 < s.opponent.health
    · have e0 : s.check_game_over = (s, false) := by
        simp [GameState.check_game_over, Player.is_alive, h1, h2]
      rw [e0] at h
      exact absurd h (by simp)
    · have e1 : s.check_game_over =
          ({ s with game_over := true, winner := some Who.player }, true) := by
        simp [GameState.check_game_over, Player.is_alive, h1, h2]
      have e2 : ({ s with game_over := true, winner := some Who.player } : GameState).check_game_over = ({ s with game_over := true, winner := some Who.player }, true) := by
        simp [GameState.check_game_over, Player.is_alive, h1, h2]
      rw [e1]
      exact ⟨e2, rfl, by rw [e2]⟩
  · have e1 : s.check_game_over =
        ({ s with game_over := true, winner := some Who.opponent }, true) := by
      simp [GameState.check_game_over, Player.is_alive, h1]
    have e2 : ({ s with game_over := true, winner := some Who.opponent } : GameState).check_game_over = ({ s with game_over := true, winner := some Who.opponent }, true) := by
      simp [GameState.check_game_over, Player.is_alive, h1]
    rw [e1]
    exact ⟨e2, rfl, by rw [e2]⟩

theorem C7_witness :
    (sC7.check_game_over).1.check_game_over = ((sC7.check_game_over).1, true)
    ∧ (sC7.check_game_over).1.game_over = true
    ∧ ((sC7.check_game_over).1.check_game_over).1.winner = (sC7.check_game_over).1.winner :=
  C7_check_game_over_idempotent sC7 (by decide)

/-- Claim C2 counterexample: attacker card (atk=5,hp=5) vs defender card
(atk=3,hp=2) in lane 0 — the defender card is destroyed and the defender
player bleeds 3, but the attacker card does NOT end at hp=2: the
destroyed defender never counter-attacks, so the attacker card still has
hp=5. -/
theorem C2_counterexample :
    ((handle_attack_phase sC2).1.player.field.getD 0 none).map Card.hp = some 5
    ∧ ¬ (((handle_attack_phase sC2).1.player.field.getD 0 none).map Card.hp = some 2) := by
  refine ⟨by decide, by decide⟩

/-- Claim C2 (amended): in that scenario the defender card is destroyed,
excess 3 bleeds onto the defender player (health 10 → 7), and the
attacker card survives untouched at hp=5 — no counter-attack happens
because the defender card died, so the events are exactly the attack,
the destruction and the bleed-through. -/
theorem C2_attack_scenario :
    (handle_attack_phase sC2).1.opponent.field = [none, none, none]
    ∧ (handle_attack_phase sC2).1.opponent.health = 7
    ∧ (handle_attack_phase sC2).1.player.field = [some cAtk55, none, none]
    ∧ (handle_attack_phase sC2).2 =
        [Event.card_attack "Alpha" "Delta" 5 0,
          Event.card_destroyed "Delta" 0,
          Event.player_damage "Bob" 3 "Excess from Alpha"] := by
  refine ⟨by decide, by decide, by decide, by decide⟩

/-- Claim C3 counterexample: the opponent "AI Bot" has no difficulty
marker in its name and a deck of 9 rare cards; per the claim the hard
tier (30) should be inferred from the rare+epic count, but the code
awards the normal tier (25) — the deck is never consulted. -/
theorem C3_counterexample :
    (sC3.opponent.deck.cards.filter
        (fun c => c.rarity = "rare" ∨ c.rarity = "epic")).length = 9
    ∧ containsSub (strLower sC3.opponent.name) "easy".toList = false
    ∧ containsSub (strLower sC3.opponent.name) "hard".toList = false
    ∧ (handle_attack_phase sC3).1.winner = some Who.player
    ∧ (handle_attack_phase sC3).1.player.credits = VICTORY_REWARD_NORMAL
    ∧ Event.credits_awarded "Alice" VICTORY_REWARD_NORMAL "normal"
        ∈ (handle_attack_phase sC3).2
    ∧ VICTORY_REWARD_NORMAL ≠ VICTORY_REWARD_HARD := by
  refine ⟨by decide, by decide, by decide, by decide, by decide, by decide, by decide⟩

/-- Claim C6: from (index 0, DRAW, turn 1), four `next_phase` steps reach
DRAW with the index flipped to 1 and the turn number still 1; eight steps
return to index 0 with turn number 2; and every END→DRAW wrap flips the
index, bumps the turn number exactly when the newly active index is 0,
and resets the energy of the newly active player only. -/
theorem C6_turn_cycle (s : GameState)
    (h0 : s.current_player_index = 0) (h1 : s.current_phase = GamePhase.DRAW)
    (h2 : s.turn_number = 1) :
    (s.next_phase.next_phase.next_phase.next_phase.current_phase = GamePhase.DRAW
      ∧ s.next_phase.next_phase.next_phase.next_phase.current_player_index = 1
      ∧ s.next_phase.next_phase.next_phase.next_phase.turn_number = 1)
    ∧ (s.next_phase.next_phase.next_phase.next_phase.next_phase.next_phase.next_phase.next_phase.current_player_index = 0
      ∧ s.next_phase.next_phase.next_phase.next_phase.next_phase.next_phase.next_phase.next_phase.turn_number = 2)
    ∧ (∀ t : GameState, t.current_phase = GamePhase.END →
        t.current_player_index = 0 ∨ t.current_player_index = 1 →
        (t.next_phase.current_phase = GamePhase.DRAW
          ∧ t.next_phase.current_player_index = 1 - t.current_player_index
          ∧ t.next_phase.turn_number =
              (if t.next_phase.current_player_index = 0 then t.turn_number + 1
                else t.turn_number)
          ∧ (t.current_player_index = 0 →
              t.next_phase.opponent = { t.opponent with energy := t.opponent.max_energy }
                ∧ t.next_phase.player = t.player)
          ∧ (t.current_player_index = 1 →
              t.next_phase.player = { t.player with energy := t.player.max_energy }
                ∧ t.next_phase.opponent = t.opponent))) := by
  obtain ⟨p, o, idx, ph, t, go, w⟩ := s
  simp only at h0 h1 h2
  subst h0 h1 h2
  refine ⟨?_, ?_, ?_⟩
  · simp [GameState.next_phase, GamePhase.next, GameState.next_turn,
      GameState.updateCurrent, Player.reset_energy]
  · simp [GameState.next_phase, GamePhase.next, GameState.next_turn,
      GameState.updateCurrent, Player.reset_energy]
  · intro u hu hidx
    obtain ⟨up, uo, uidx, uph, ut, ugo, uw⟩ := u
    simp only at hu
    subst hu
    rcases hidx with hidx | hidx <;>
      (simp only at hidx; subst hidx;
        simp [GameState.next_phase, GamePhase.next, GameState.next_turn,
          GameState.updateCurrent, Player.reset_energy])

theorem C6_witness :
    (sC6.next_phase.next_phase.next_phase.next_phase.current_phase = GamePhase.DRAW
      ∧ sC6.next_phase.next_phase.next_phase.next_phase.current_player_index = 1
      ∧ sC6.next_phase.next_phase.next_phase.next_phase.turn_number = 1)
    ∧ (sC6.next_phase.next_phase.next_phase.next_phase.next_phase.next_phase.next_phase.next_phase.current_player_index = 0
      ∧ sC6.next_phase.next_phase.next_phase.next_phase.next_phase.next_phase.next_phase.next_phase.turn_number = 2)
    ∧ (tEnd.next_phase.current_phase = GamePhase.DRAW
      ∧ tEnd.next_phase.current_player_index = 1 - tEnd.current_player_index) := by
  have h := C6_turn_cycle sC6 (by decide) (by decide) (by decide)
  have h3 := h.2.2 tEnd (by decide) (Or.inl (by decide))
  exact ⟨h.1, h.2.1, h3.1, h3.2.1⟩

theorem resolveSlot_attacker_health (a d : Player) (slot : Nat) :
    ((resolveSlot a d slot).1).health = a.health := by
  unfold resolveSlot
  cases hA : a.field.getD slot none with
  | none => rfl
  | some card =>
    cases hD : d.field.getD slot none with
    | none => rfl
    | some dcard =>
      dsimp only
      split_ifs <;> rfl

theorem attackLoop_attacker_health (slots : List Nat) :
    ∀ a d : Player, ((attackLoop a d slots).1).health = a.health := by
  induction slots with
  | nil => intro a d; rfl
  | cons slot rest ih =>
    intro a d
    exact (ih _ _).trans (resolveSlot_attacker_health a d slot)

theorem check_game_over_fields (s : GameState) :
    (s.check_game_over).1.player = s.player
    ∧ (s.check_game_over).1.opponent = s.opponent
    ∧ (s.check_game_over).1.current_player_index = s.current_player_index := by
  unfold GameState.check_game_over
  split_ifs <;> exact ⟨rfl, rfl, rfl⟩

theorem setCurrentOther_fields (s : GameState) (cur other : Player) :
    (s.setCurrentOther cur other).current_player_index = s.current_player_index
    ∧ (s.setCurrentOther cur other).current_player = cur
    ∧ (s.setCurrentOther cur other).other_player = other := by
  unfold GameState.setCurrentOther GameState.current_player GameState.other_player
  split_ifs with h <;> simp [h]

theorem current_player_health_congr {x y : GameState}
    (hp : x.player.health = y.player.health)
    (ho : x.opponent.health = y.opponent.health)
    (hi : x.current_player_index = y.current_player_index) :
    x.current_player.health = y.current_player.health := by
  unfold GameState.current_player
  rw [hi]
  split_ifs
  · exact hp
  · exact ho

theorem handle_attack_phase_attacker (s : GameState) :
    (handle_attack_phase s).1.current_player_index = s.current_player_index
    ∧ (handle_attack_phase s).1.current_player.health = s.current_player.health := by
  have hfields : (handle_attack_phase s).1.player.health =
        (s.setCurrentOther
          (attackLoop s.current_player s.other_player (List.range s.current_player.field.length)).1
          (attackLoop s.current_player s.other_player (List.range s.current_player.field.length)).2.1).player.health
      ∧ (handle_attack_phase s).1.opponent.health =
        (s.setCurrentOther
          (attackLoop s.current_player s.other_player (List.range s.current_player.field.length)).1
          (attackLoop s.current_player s.other_player (List.range s.current_player.field.length)).2.1).opponent.health
      ∧ (handle_attack_phase s).1.current_player_index =
        (s.setCurrentOther
          (attackLoop s.current_player s.other_player (List.range s.current_player.field.length)).1
          (attackLoop s.current_player s.other_player (List.range s.current_player.field.length)).2.1).current_player_index := by
    unfold handle_attack_phase
    dsimp only
    have hcg := check_game_over_fields
      (s.setCurrentOther
        (attackLoop s.current_player s.other_player (List.range s.current_player.field.length)).1
        (attackLoop s.current_player s.other_player (List.range s.current_player.field.length)).2.1)
    split_ifs with h1 h2
    · exact ⟨by simp [Player.add_credits, hcg.1], by simp [hcg.2.1], by simp [hcg.2.2]⟩
    · exact ⟨by rw [hcg.1], by rw [hcg.2.1], by rw [hcg.2.2]⟩
    · exact ⟨by rw [hcg.1], by rw [hcg.2.1], by rw [hcg.2.2]⟩
  have hso := setCurrentOther_fields s
    (attackLoop s.current_player s.other_player (List.range s.current_player.field.length)).1
    (attackLoop s.current_player s.other_player (List.range s.current_player.field.length)).2.1
  constructor
  · rw [hfields.2.2, hso.1]
  · have h := current_player_health_congr hfields.1 hfields.2.1 hfields.2.2
    rw [h, hso.2.1]
    exact attackLoop_attacker_health _ _ _

theorem take_damage_kill (c : Card) (dmg : Int) (h : c.hp ≤ dmg) :
    c.take_damage dmg = ({ c with hp := 0 }, dmg - c.hp) := by
  unfold Card.take_damage
  dsimp only
  by_cases hlt : c.hp - dmg < 0
  · rw [if_pos hlt]
    have habs : |c.hp - dmg| = dmg - c.hp := by
      rw [abs_of_neg hlt]; ring
    rw [habs]
  · have h0 : c.hp - dmg = 0 := by omega
    have h0' : dmg - c.hp = 0 := by omega
    rw [if_neg hlt, h0, h0']

/-- Claim C1: in an occupied lane, when the attacker card's attack
reduces the defender card's hp to 0, the defender card is cleared from
its slot and the excess (attack minus the defender card's hp before the
hit), when positive, is applied to the defending player's health; the
attacking player's health is never touched by a lane resolution nor by
the whole attack phase (so counter-attack kills never bleed through). -/
theorem C1_overkill_bleed (a d : Player) (slot : Nat) (card dcard : Card)
    (s : GameState)
    (hA : a.field.getD slot none = some card)
    (hD : d.field.getD slot none = some dcard)
    (hKill : dcard.hp ≤ card.attack) :
    (resolveSlot a d slot).2.1.field.getD slot none = none
    ∧ (resolveSlot a d slot).2.1.health =
        (if 0 < card.attack - dcard.hp then max 0 (d.health - (card.attack - dcard.hp))
          else d.health)
    ∧ (resolveSlot a d slot).1.health = a.health
    ∧ (handle_attack_phase s).1.current_player.health = s.current_player.health := by
  have hlen : slot < d.field.length := by
    by_contra hc
    rw [List.getD_eq_default _ _ (Nat.le_of_not_lt hc)] at hD
    exact Option.noConfusion hD
  have hfield : ((d.field.set slot none).getD slot none) = none := by
    rw [List.getD_eq_getElem?_getD, List.getElem?_set_self]
    · simp
    · omega
  have htd := take_damage_kill dcard card.attack hKill
  have hdead : ¬ (({ dcard with hp := 0 } : Card).is_alive = true) := by
    simp [Card.is_alive]
  by_cases hpos : 0 < card.attack - dcard.hp
  · have hres : resolveSlot a d slot =
        (a, ({ d with field := d.field.set slot none }).take_damage (card.attack - dcard.hp),
          [Event.card_attack card.name dcard.name card.attack slot,
            Event.card_destroyed dcard.name slot,
            Event.player_damage d.name (card.attack - dcard.hp) ("Excess from " ++ card.name)]) := by
      unfold resolveSlot
      rw [hA, hD]
      dsimp only
      rw [htd]
      dsimp only
      rw [if_pos hdead, if_pos hpos]
    refine ⟨?_, ?_, resolveSlot_attacker_health a d slot,
      (handle_attack_phase_attacker s).2⟩
    · rw [hres]
      dsimp only [Player.take_damage]
      exact hfield
    · rw [hres]
      dsimp only [Player.take_damage]
      rw [if_pos hpos]
  · have hres : resolveSlot a d slot =
        (a, { d with field := d.field.set slot none },
          [Event.card_attack card.name dcard.name card.attack slot,
            Event.card_destroyed dcard.name slot]) := by
      unfold resolveSlot
      rw [hA, hD]
      dsimp only
      rw [htd]
      dsimp only
      rw [if_pos hdead, if_neg hpos]
    refine ⟨?_, ?_, resolveSlot_attacker_health a d slot,
      (handle_attack_phase_attacker s).2⟩
    · rw [hres]
      exact hfield
    · rw [hres, if_neg hpos]

theorem C1_witness :
    (resolveSlot pC2 oC2 0).2.1.field.getD 0 none = none
    ∧ (resolveSlot pC2 oC2 0).2.1.health =
        (if 0 < cAtk55.attack - cDef32.hp then max 0 (oC2.health - (cAtk55.attack - cDef32.hp))
          else oC2.health)
    ∧ (resolveSlot pC2 oC2 0).1.health = pC2.health
    ∧ (handle_attack_phase sC2).1.current_player.health = sC2.current_player.health :=
  C1_overkill_bleed pC2 oC2 0 cAtk55 cDef32 sC2 (by decide) (by decide) (by decide)

/-- Claim C3 (amended): when attack-phase resolution ends the game in the
human player's favor, the reward tier is chosen solely by the textual
"easy"/"hard" marker in the opponent's lowercased display name, with the
normal tier whenever no marker is present (the opponent deck's
rare-plus-epic count is never consulted); the reward is credited to the
human player and a `credits_awarded` event is emitted. -/
theorem C3_reward_by_name_marker (s : GameState)
    (halive : (attack_phase_state s).player.is_alive = true)
    (hdead : (attack_phase_state s).opponent.is_alive = false) :
    (handle_attack_phase s).1.player.credits =
      (attack_phase_state s).player.credits +
        rewardOf (difficultyOf (attack_phase_state s).opponent.name)
    ∧ (handle_attack_phase s).1.game_over = true
    ∧ (handle_attack_phase s).1.winner = some Who.player
    ∧ Event.credits_awarded (attack_phase_state s).player.name
        (rewardOf (difficultyOf (attack_phase_state s).opponent.name))
        (difficultyOf (attack_phase_state s).opponent.name)
        ∈ (handle_attack_phase s).2 := by
  have hcg : (attack_phase_state s).check_game_over =
      ({ attack_phase_state s with game_over := true, winner := some Who.player }, true) := by
    unfold GameState.check_game_over
    rw [if_neg (not_not_intro halive), if_pos (show ¬ ((attack_phase_state s).opponent.is_alive = true) by simp [hdead])]
  have hrw : s.setCurrentOther
      (attackLoop s.current_player s.other_player (List.range s.current_player.field.length)).1
      (attackLoop s.current_player s.other_player (List.range s.current_player.field.length)).2.1 =
      attack_phase_state s := rfl
  unfold handle_attack_phase
  dsimp only
  rw [hrw, hcg]
  dsimp only
  rw [if_pos rfl, if_pos rfl]
  refine ⟨rfl, rfl, rfl, ?_⟩
  simp

theorem C3_witness :
    (handle_attack_phase sC3).1.player.credits =
      (attack_phase_state sC3).player.credits +
        rewardOf (difficultyOf (attack_phase_state sC3).opponent.name)
    ∧ (handle_attack_phase sC3).1.game_over = true
    ∧ (handle_attack_phase sC3).1.winner = some Who.player
    ∧ Event.credits_awarded (attack_phase_state sC3).player.name
        (rewardOf (difficultyOf (attack_phase_state sC3).opponent.name))
        (difficultyOf (attack_phase_state sC3).opponent.name)
        ∈ (handle_attack_phase sC3).2 :=
  C3_reward_by_name_marker sC3 (by decide) (by decide)

theorem play_card_success_shrinks (p : Player) (hi fi : Int)
    (h : (p.play_card hi fi).2.1 = true) :
    (p.play_card hi fi).1.hand.length < p.hand.length := by
  unfold Player.play_card at h ⊢
  by_cases h1 : 0 ≤ hi ∧ hi < (p.hand.length : Int)
  · rw [if_neg (not_not_intro h1)] at h ⊢
    by_cases h2 : 0 ≤ fi ∧ fi < (PLAYER_FIELD_SIZE : Int)
    · rw [if_neg (not_not_intro h2)] at h ⊢
      by_cases h3 : (p.field.getD fi.toNat none).isSome = true
      · rw [if_pos h3] at h
        simp at h
      · rw [if_neg h3] at h ⊢
        dsimp only at h ⊢
        by_cases h4 : p.energy < (p.hand.getD hi.toNat default).cost
        · rw [if_pos h4] at h
          simp at h
        · rw [if_neg h4] at h ⊢
          dsimp only
          rw [List.length_eraseIdx_of_lt (by omega)]
          omega
    · rw [if_pos h2] at h
      simp at h
  · rw [if_pos h1] at h
    simp at h

theorem play_step_shrinks (ai : AIController) (fp : List (Nat × ℚ)) (hp : Player)
    (jit : Nat → ℚ) (aiP : Player) (k : Nat) (out : Player × Event × Nat)
    (h : play_step ai fp hp jit aiP k = Sum.inr out) :
    out.1.hand.length < aiP.hand.length := by
  unfold play_step at h
  dsimp only at h
  cases hpb : pickBest (buildCandidates ai aiP hp jit aiP.hand 0 k).1 with
  | none =>
    rw [hpb] at h
    simp at h
  | some t =>
    obtain ⟨idx, card, score⟩ := t
    rw [hpb] at h
    dsimp only at h
    cases hpp : pickBestPosition ai card fp aiP hp with
    | none =>
      rw [hpp] at h
      simp at h
    | some pos =>
      rw [hpp] at h
      dsimp only at h
      by_cases hs : (aiP.play_card (idx : Int) (pos : Int)).2.1 = true
      · rw [if_pos hs] at h
        have hsh := play_card_success_shrinks aiP idx pos hs
        cases h
        exact hsh
      · rw [if_neg hs] at h
        simp at h

theorem play_cards_loop_total (ai : AIController) (fp : List (Nat × ℚ)) (hp : Player)
    (jit : Nat → ℚ) : ∀ fuel (aiP : Player) (k : Nat), aiP.hand.length < fuel →
    (play_cards_loop ai fp hp jit aiP k fuel).isSome = true := by
  intro fuel
  induction fuel with
  | zero => intro aiP k h; exact absurd h (Nat.not_lt_zero _)
  | succ n ih =>
    intro aiP k h
    simp only [play_cards_loop]
    cases hstep : play_step ai fp hp jit aiP k with
    | inl r => simp
    | inr out =>
      obtain ⟨p1, ev, k1⟩ := out
      have hs := play_step_shrinks ai fp hp jit aiP k _ hstep
      have hrec := ih p1 k1 (by simp at hs ⊢; omega)
      dsimp only
      cases hrec2 : play_cards_loop ai fp hp jit p1 k1 n with
      | none => rw [hrec2] at hrec; simp at hrec
      | some pr =>
        obtain ⟨pp, evs⟩ := pr
        rfl

theorem buildCandidates_unaffordable (ai : AIController) (aiP humanP : Player)
    (jit : Nat → ℚ) : ∀ (l : List Card) (idx k : Nat),
    (∀ c ∈ l, aiP.energy < c.cost) →
    buildCandidates ai aiP humanP jit l idx k = ([], k) := by
  intro l
  induction l with
  | nil => intro idx k _; rfl
  | cons c rest ih =>
    intro idx k h
    have hc : aiP.energy < c.cost := h c (by simp)
    simp only [buildCandidates]
    rw [if_pos hc]
    exact ih _ _ (fun x hx => h x (by simp [hx]))

theorem play_step_break_unaffordable (ai : AIController) (fp : List (Nat × ℚ))
    (humanP : Player) (jit : Nat → ℚ) (aiP : Player) (k : Nat)
    (h : ∀ c ∈ aiP.hand, aiP.energy < c.cost) :
    play_step ai fp humanP jit aiP k = Sum.inl (aiP, []) := by
  unfold play_step
  dsimp only
  rw [buildCandidates_unaffordable ai aiP humanP jit aiP.hand 0 k h]
  rfl

theorem evaluate_field_positions_full (ai : AIController) (aiP humanP : Player)
    (hlen : aiP.field.length = PLAYER_FIELD_SIZE)
    (h : ∀ x ∈ aiP.field, x.isSome = true) :
    evaluate_field_positions ai aiP humanP = [] := by
  have hget : ∀ i : Nat, i ∈ List.range PLAYER_FIELD_SIZE →
      (aiP.field.getD i none).isSome = true := by
    intro i hi
    have hi' : i < aiP.field.length := by
      rw [hlen]
      exact List.mem_range.mp hi
    rw [List.getD_eq_getElem _ _ hi']
    exact h _ (List.getElem_mem _)
  unfold evaluate_field_positions
  rw [List.filterMap_eq_nil_iff]
  intro i hi
  rw [if_pos (hget i hi)]

theorem play_step_break_no_positions (ai : AIController) (humanP : Player)
    (jit : Nat → ℚ) (aiP : Player) (k : Nat) :
    play_step ai [] humanP jit aiP k = Sum.inl (aiP, []) := by
  unfold play_step
  dsimp only
  cases hpb : pickBest (buildCandidates ai aiP humanP jit aiP.hand 0 k).1 with
  | none => rfl
  | some t =>
    obtain ⟨idx, card, score⟩ := t
    rfl

/-- Claim C9: the fuel-indexed `_play_cards` loop always terminates
within `hand.length + 1` iterations (every successful play shrinks the
hand), and `take_turn` plays no card — no events, state unchanged — when
every hand card's cost exceeds the AI's energy or when all
`PLAYER_FIELD_SIZE` AI field slots are occupied. -/
theorem C9_ai_termination (ai : AIController) (s : GameState) (jit : Nat → ℚ)
    (fp : List (Nat × ℚ)) (humanP aiP : Player) (k : Nat) :
    (play_cards_loop ai fp humanP jit aiP k (aiP.hand.length + 1)).isSome = true
    ∧ ((∀ c ∈ s.opponent.hand, s.opponent.energy < c.cost) →
        ai.take_turn s jit = (s, []))
    ∧ ((s.opponent.field.length = PLAYER_FIELD_SIZE ∧
        ∀ x ∈ s.opponent.field, x.isSome = true) →
        ai.take_turn s jit = (s, [])) := by
  refine ⟨play_cards_loop_total ai fp humanP jit _ aiP k (Nat.lt_succ_self _), ?_, ?_⟩
  · intro h
    unfold AIController.take_turn
    by_cases hidx : s.current_player_index = 1
    · rw [if_neg (not_not_intro hidx)]
      by_cases hph : s.current_phase = GamePhase.PLAY
      · rw [if_pos hph]
        unfold play_cards
        dsimp only
        simp only [play_cards_loop]
        rw [play_step_break_unaffordable ai
          (evaluate_field_positions ai s.opponent s.player) s.player jit s.opponent 0 h]
      · rw [if_neg hph]
    · rw [if_pos hidx]
  · intro hfull
    unfold AIController.take_turn
    by_cases hidx : s.current_player_index = 1
    · rw [if_neg (not_not_intro hidx)]
      by_cases hph : s.current_phase = GamePhase.PLAY
      · rw [if_pos hph]
        unfold play_cards
        dsimp only
        rw [evaluate_field_positions_full ai s.opponent s.player hfull.1 hfull.2]
        simp only [play_cards_loop]
        rw [play_step_break_no_positions ai s.player jit s.opponent 0]
      · rw [if_neg hph]
    · rw [if_pos hidx]

theorem C9_witness :
    (play_cards_loop aiC [] (basePlayer "Alice") jit0 oC9 0 (oC9.hand.length + 1)).isSome = true
    ∧ aiC.take_turn sC9 jit0 = (sC9, [])
    ∧ aiC.take_turn sC9b jit0 = (sC9b, []) :=
  ⟨(C9_ai_termination aiC sC9 jit0 [] (basePlayer "Alice") oC9 0).1,
    (C9_ai_termination aiC sC9 jit0 [] (basePlayer "Alice") oC9 0).2.1 (by decide),
    (C9_ai_termination aiC sC9b jit0 [] (basePlayer "Alice") oC9 0).2.2 ⟨by decide, by decide⟩⟩
